import Mathlib

/-
Verification of the safety-aware route search engine of this repository.

The Python sources are shallowly embedded:

* exact rational arithmetic (ℚ) replaces Python floats for the grid scoring,
  waypoint generation, cost matrices and route selection pipelines, whose
  Python counterparts use only field operations and comparisons;
* the haversine distance (math.sin / cos / atan2 / sqrt) is embedded over ℝ
  with an explicit atan2 following the C/Python convention;
* trigonometric values consumed by the waypoint generator and the fallback
  route builder (Python computes them with math.sin/math.cos on floats) are
  passed as explicit function parameters (sinD, cosD, ...), so every theorem
  quantifies over them; concrete instantiations used in witnesses agree with
  the float values at the arguments actually evaluated (e.g. sin 0 = 0,
  cos 0 = 1, which Python floats also compute exactly);
* the stream of np.random.normal draws consumed by the waypoint generator is
  passed as an explicit parameter rng : ℕ → ℚ, two draws per intermediate
  waypoint, mirroring the order of consumption in the source;
* Python exceptions (ZeroDivisionError on float division by zero, the
  explicit raise in the selectors) are modelled with Except.
-/

/-! ## Incident-count to safety-score mappings

`google_maps_router.GoogleMapsRouter.get_safety_score` (the branch taken when
the grid cell holds `incident_count` incidents, lines 228-244) and
`road_aware_router.RoadAwareRouter.get_safety_score` (lines 107-111). -/

namespace GoogleMapsRouter

/-- Safety score from a grid cell incident count, from
`GoogleMapsRouter.get_safety_score`: 0 ↦ 85, 1-2 ↦ 80-5c, 3-5 ↦ 70-3(c-2),
6-10 ↦ 55-2(c-5), above 10 ↦ max 20 (45-(c-10)). -/
def get_safety_score (c : ℕ) : ℚ :=
  if c = 0 then 85
  else if c ≤ 2 then 80 - (c : ℚ) * 5
  else if c ≤ 5 then 70 - ((c : ℚ) - 2) * 3
  else if c ≤ 10 then 55 - ((c : ℚ) - 5) * 2
  else max 20 (45 - ((c : ℚ) - 10) * 1)

end GoogleMapsRouter

namespace RoadAwareRouter

/-- Safety score from a grid cell incident count, from
`RoadAwareRouter.get_safety_score`: `max(0, 100 - incident_count * 10)`. -/
def get_safety_score (c : ℕ) : ℚ :=
  max 0 (100 - (c : ℚ) * 10)

end RoadAwareRouter

/-! ## Haversine distance (`SafeRouteFinder.calculate_distance`,
also `_calculate_distance` in google_maps_router.py / road_aware_router.py,
identical formula). -/

namespace SafeRouteFinder

/-- Two-argument arctangent with the convention of Python's `math.atan2`. -/
noncomputable def atan2 (y x : ℝ) : ℝ :=
  if 0 < x then Real.arctan (y / x)
  else if x < 0 then
    (if 0 ≤ y then Real.arctan (y / x) + Real.pi
     else Real.arctan (y / x) - Real.pi)
  else
    (if 0 < y then Real.pi / 2 else if y < 0 then -(Real.pi / 2) else 0)

/-- Degrees to radians, Python's `math.radians`. -/
noncomputable def radians (d : ℝ) : ℝ := d * Real.pi / 180

/-- Haversine distance in meters, from `SafeRouteFinder.calculate_distance`. -/
noncomputable def calculate_distance (lat1 lng1 lat2 lng2 : ℝ) : ℝ :=
  let R : ℝ := 6371000
  let lat1_rad := radians lat1
  let lat2_rad := radians lat2
  let delta_lat := radians (lat2 - lat1)
  let delta_lng := radians (lng2 - lng1)
  let a := Real.sin (delta_lat / 2) ^ 2 +
    Real.cos lat1_rad * Real.cos lat2_rad * Real.sin (delta_lng / 2) ^ 2
  let c := 2 * atan2 (Real.sqrt a) (Real.sqrt (1 - a))
  R * c

lemma arctan_nonneg_of_nonneg (x : ℝ) (hx : 0 ≤ x) : 0 ≤ Real.arctan x := by
  have := Real.arctan_strictMono.monotone hx
  rwa [Real.arctan_zero] at this

lemma atan2_nonneg (y x : ℝ) (hy : 0 ≤ y) : 0 ≤ atan2 y x := by
  have hpi : 0 < Real.pi := Real.pi_pos
  have harc : -(Real.pi / 2) < Real.arctan (y / x) := Real.neg_pi_div_two_lt_arctan _
  unfold atan2
  by_cases h1 : 0 < x
  · rw [if_pos h1]
    exact arctan_nonneg_of_nonneg _ (div_nonneg hy (le_of_lt h1))
  · rw [if_neg h1]
    by_cases h2 : x < 0
    · rw [if_pos h2, if_pos hy]
      linarith
    · rw [if_neg h2]
      by_cases h3 : 0 < y
      · rw [if_pos h3]
        linarith
      · rw [if_neg h3, if_neg (not_lt.mpr hy)]

end SafeRouteFinder

/-! ## Claim C7 -/

/-- C7 counterexample: in `GoogleMapsRouter.get_safety_score` the points lost
per additional incident increase when the count crosses from 5 to 6 (a drop of
3 points from 4 to 5 incidents, but 8 points from 5 to 6), refuting the
claimed diminishing marginal penalty. -/
theorem google_penalty_jump :
    GoogleMapsRouter.get_safety_score 4 - GoogleMapsRouter.get_safety_score 5 <
      GoogleMapsRouter.get_safety_score 5 - GoogleMapsRouter.get_safety_score 6 := by
  norm_num [GoogleMapsRouter.get_safety_score]

/-- C7 amended: both incident-count mappings are monotonically non-increasing;
the google_maps mapping keeps incident-derived scores within [20, 80] (hence
within the claimed [20, 85]) but its marginal penalty is not non-increasing
(see the counterexample); the road_aware mapping has non-increasing marginal
penalty but ranges over [0, 90] for nonzero counts, violating the [20, 85]
bounds (90 at one incident, 0 at ten). -/
theorem incident_score_amended (c : ℕ) :
    GoogleMapsRouter.get_safety_score (c + 1) ≤ GoogleMapsRouter.get_safety_score c ∧
    (20 ≤ GoogleMapsRouter.get_safety_score (c + 1) ∧
      GoogleMapsRouter.get_safety_score (c + 1) ≤ 80) ∧
    RoadAwareRouter.get_safety_score (c + 1) ≤ RoadAwareRouter.get_safety_score c ∧
    RoadAwareRouter.get_safety_score (c + 1) - RoadAwareRouter.get_safety_score (c + 2) ≤
      RoadAwareRouter.get_safety_score c - RoadAwareRouter.get_safety_score (c + 1) ∧
    RoadAwareRouter.get_safety_score 1 = 90 ∧
    RoadAwareRouter.get_safety_score 10 = 0 := by
  have hgoogle_ge11 : ∀ m : ℕ, 11 ≤ m →
      GoogleMapsRouter.get_safety_score m = max 20 (55 - (m : ℚ)) := by
    intro m hm
    have h0 : ¬ m = 0 := by omega
    have h2 : ¬ m ≤ 2 := by omega
    have h5 : ¬ m ≤ 5 := by omega
    have h10 : ¬ m ≤ 10 := by omega
    simp only [GoogleMapsRouter.get_safety_score, h0, h2, h5, h10, if_false]
    ring_nf
  have hroad : ∀ m : ℕ, RoadAwareRouter.get_safety_score m = max 0 (100 - (m : ℚ) * 10) :=
    fun m => rfl
  refine ⟨?_, ⟨?_, ?_⟩, ?_, ?_, by norm_num [RoadAwareRouter.get_safety_score],
    by norm_num [RoadAwareRouter.get_safety_score]⟩
  · -- google monotone
    rcases Nat.lt_or_ge c 11 with hc | hc
    · interval_cases c <;> norm_num [GoogleMapsRouter.get_safety_score]
    · rw [hgoogle_ge11 c (by omega), hgoogle_ge11 (c + 1) (by omega)]
      exact max_le_max (le_refl 20) (by push_cast; linarith)
  · -- google lower bound for nonzero counts
    rcases Nat.lt_or_ge c 11 with hc | hc
    · interval_cases c <;> norm_num [GoogleMapsRouter.get_safety_score]
    · rw [hgoogle_ge11 (c + 1) (by omega)]
      exact le_max_left 20 _
  · -- google upper bound for nonzero counts
    rcases Nat.lt_or_ge c 11 with hc | hc
    · interval_cases c <;> norm_num [GoogleMapsRouter.get_safety_score]
    · rw [hgoogle_ge11 (c + 1) (by omega)]
      have : (55 : ℚ) - ((c : ℚ) + 1) ≤ 80 := by
        have : (0 : ℚ) ≤ (c : ℚ) := Nat.cast_nonneg c
        linarith
      have h20 : (20 : ℚ) ≤ 80 := by norm_num
      rw [max_le_iff]
      constructor
      · exact h20
      · push_cast; linarith [Nat.cast_nonneg (α := ℚ) c]
  · -- road monotone
    rw [hroad, hroad]
    exact max_le_max (le_refl 0) (by push_cast; linarith)
  · -- road penalty non-increasing
    rw [hroad, hroad, hroad]
    rcases le_or_lt ((c : ℚ) * 10) 80 with h | h
    · -- scores 100-10c, 100-10(c+1), and max 0 (100-10(c+2)) with 100-10(c+2) ≥ 0 or = 0
      have h1 : max 0 (100 - (c : ℚ) * 10) = 100 - (c : ℚ) * 10 := by
        rw [max_eq_right]; linarith
      have h2 : max 0 (100 - ((c : ℚ) + 1) * 10) = 100 - ((c : ℚ) + 1) * 10 := by
        rw [max_eq_right]; linarith
      have h3 : (100 - ((c : ℚ) + 2) * 10) ≤ max 0 (100 - ((c : ℚ) + 2) * 10) :=
        le_max_right 0 _
      push_cast
      rw [h1, h2]
      push_cast at h3 ⊢
      linarith
  -- here 10c > 80, i.e. c ≥ 9, so the (c+1) and (c+2) scores are 10/0 or 0/0
    · have hc9 : 9 ≤ c := by
        by_contra hcon
        push_neg at hcon
        interval_cases c <;> norm_num at h
      rcases Nat.eq_or_lt_of_le hc9 with h9 | h10
      · subst h9
        norm_num
      · have hc10 : 10 ≤ c := by omega
        have hz : ∀ m : ℕ, 10 ≤ m → max 0 (100 - (m : ℚ) * 10) = 0 := by
          intro m hm
          rw [max_eq_left]
          have : (10 : ℚ) ≤ (m : ℚ) := by exact_mod_cast hm
          linarith
        push_cast
        have e1 := hz c hc10
        have e2 := hz (c + 1) (by omega)
        have e3 := hz (c + 2) (by omega)
        push_cast at e1 e2 e3
        rw [e1, e2, e3]

/-! ## Claim C10 -/

/-- C10: the haversine distance is symmetric, everywhere non-negative, and
exactly zero on identical points. -/
theorem haversine_sym_nonneg_zero :
    (∀ lat1 lng1 lat2 lng2 : ℝ,
      SafeRouteFinder.calculate_distance lat1 lng1 lat2 lng2 =
        SafeRouteFinder.calculate_distance lat2 lng2 lat1 lng1) ∧
    (∀ lat1 lng1 lat2 lng2 : ℝ,
      0 ≤ SafeRouteFinder.calculate_distance lat1 lng1 lat2 lng2) ∧
    (∀ lat lng : ℝ, SafeRouteFinder.calculate_distance lat lng lat lng = 0) := by
  refine ⟨?_, ?_, ?_⟩
  · intro lat1 lng1 lat2 lng2
    unfold SafeRouteFinder.calculate_distance
    have hlat : SafeRouteFinder.radians (lat1 - lat2) = -SafeRouteFinder.radians (lat2 - lat1) := by
      unfold SafeRouteFinder.radians; ring
    have hlng : SafeRouteFinder.radians (lng1 - lng2) = -SafeRouteFinder.radians (lng2 - lng1) := by
      unfold SafeRouteFinder.radians; ring
    simp only [hlat, hlng]
    rw [neg_div, neg_div, Real.sin_neg, Real.sin_neg]
    ring_nf
  · intro lat1 lng1 lat2 lng2
    unfold SafeRouteFinder.calculate_distance
    have h := SafeRouteFinder.atan2_nonneg
      (Real.sqrt (Real.sin (SafeRouteFinder.radians (lat2 - lat1) / 2) ^ 2 +
        Real.cos (SafeRouteFinder.radians lat1) * Real.cos (SafeRouteFinder.radians lat2) *
          Real.sin (SafeRouteFinder.radians (lng2 - lng1) / 2) ^ 2))
      (Real.sqrt (1 - (Real.sin (SafeRouteFinder.radians (lat2 - lat1) / 2) ^ 2 +
        Real.cos (SafeRouteFinder.radians lat1) * Real.cos (SafeRouteFinder.radians lat2) *
          Real.sin (SafeRouteFinder.radians (lng2 - lng1) / 2) ^ 2)))
      (Real.sqrt_nonneg _)
    positivity
  · intro lat lng
    unfold SafeRouteFinder.calculate_distance
    have h0 : SafeRouteFinder.radians (lat - lat) = 0 := by
      unfold SafeRouteFinder.radians; ring
    have h0' : SafeRouteFinder.radians (lng - lng) = 0 := by
      unfold SafeRouteFinder.radians; ring
    simp only [h0, h0', zero_div, Real.sin_zero]
    norm_num
    unfold SafeRouteFinder.atan2
    norm_num

/-! ## Route selection

`EnhancedRouteFinder._select_best_route` (enhanced_route_finder.py 360-380,
identical logic in `RoadAwareRouter._select_best_road_route`), and the
sort-by-preference selection used by `GoogleMapsRouter.find_google_route` /
`_find_fallback_routes` (google_maps_router.py 655-659 and 707-711).
Only the fields the selectors read are carried. -/

namespace EnhancedRouteFinder

/-- The fields of `RouteOption` read by route selection. -/
structure RouteOption where
  total_distance : ℚ
  avg_safety_score : ℚ
  route_type : String
deriving DecidableEq, Repr

/-- Python's `max(opt.total_distance for opt in route_options)`. -/
def pyMaxDistance (opts : List RouteOption) : ℚ :=
  match opts with
  | [] => 0
  | o :: rest => (rest.map (fun x => x.total_distance)).foldl max o.total_distance

/-- `combined_score = (1 - safety_weight) * distance_score + safety_weight * safety_score`
with `distance_score = 1 - total_distance / maxd` and
`safety_score = avg_safety_score / 100`. -/
def combinedScore (maxd w : ℚ) (o : RouteOption) : ℚ :=
  (1 - w) * (1 - o.total_distance / maxd) + w * (o.avg_safety_score / 100)

/-- The loop of `_select_best_route`: state is `(best_score, best_route)`,
updated when `combined_score > best_score`. -/
def selectFold (maxd w : ℚ) : List RouteOption → ℚ × Option RouteOption → ℚ × Option RouteOption
  | [], acc => acc
  | o :: rest, acc =>
      if combinedScore maxd w o > acc.1 then
        selectFold maxd w rest (combinedScore maxd w o, some o)
      else
        selectFold maxd w rest acc

/-- `_select_best_route`: raises on an empty candidate list; raises
ZeroDivisionError when the maximal candidate distance is zero (Python float
division by zero); otherwise returns the `best_route` left by the loop,
starting from `best_score = -1`, `best_route = None`. -/
def select_best_route (opts : List RouteOption) (w : ℚ) : Except String (Option RouteOption) :=
  match opts with
  | [] => Except.error "No route options available"
  | o :: rest =>
      if pyMaxDistance (o :: rest) = 0 then Except.error "ZeroDivisionError"
      else Except.ok (selectFold (pyMaxDistance (o :: rest)) w (o :: rest) (-1, none)).2

/-- Safety score of a selection result (0 when no route was selected). -/
def selAvg (r : Except String (Option RouteOption)) : ℚ :=
  match r with
  | Except.ok (some o) => o.avg_safety_score
  | _ => 0

lemma foldl_max_init_le (a : ℚ) (l : List ℚ) : a ≤ l.foldl max a := by
  induction l generalizing a with
  | nil => exact le_refl a
  | cons x xs ih => exact le_trans (le_max_left a x) (ih (max a x))

lemma foldl_max_mem_le (a x : ℚ) (l : List ℚ) (hx : x ∈ l) : x ≤ l.foldl max a := by
  induction l generalizing a with
  | nil => cases hx
  | cons y ys ih =>
      rcases List.mem_cons.mp hx with h | h
      · subst h
        exact le_trans (le_max_right a x) (foldl_max_init_le (max a x) ys)
      · exact ih (max a y) h

lemma le_pyMaxDistance (opts : List RouteOption) (o : RouteOption) (ho : o ∈ opts) :
    o.total_distance ≤ pyMaxDistance opts := by
  match opts with
  | [] => cases ho
  | q :: rest =>
      rcases List.mem_cons.mp ho with h | h
      · subst h
        exact foldl_max_init_le _ _
      · exact foldl_max_mem_le _ _ _ (List.mem_map_of_mem _ h)

lemma selectFold_fst_le (maxd w : ℚ) (l : List RouteOption) (acc : ℚ × Option RouteOption) :
    acc.1 ≤ (selectFold maxd w l acc).1 := by
  induction l generalizing acc with
  | nil => exact le_refl _
  | cons o rest ih =>
      by_cases h : combinedScore maxd w o > acc.1
      · simpa [selectFold, h] using le_trans (le_of_lt h) (ih (combinedScore maxd w o, some o))
      · simpa [selectFold, h] using ih acc

lemma selectFold_fst_ge_mem (maxd w : ℚ) (l : List RouteOption) (acc : ℚ × Option RouteOption)
    (o : RouteOption) (ho : o ∈ l) :
    combinedScore maxd w o ≤ (selectFold maxd w l acc).1 := by
  induction l generalizing acc with
  | nil => cases ho
  | cons q rest ih =>
      rcases List.mem_cons.mp ho with h | h
      · subst h
        by_cases hq : combinedScore maxd w o > acc.1
        · simpa [selectFold, hq] using selectFold_fst_le maxd w rest (combinedScore maxd w o, some o)
        · have : combinedScore maxd w o ≤ acc.1 := le_of_not_lt hq
          simpa [selectFold, hq] using le_trans this (selectFold_fst_le maxd w rest acc)
      · by_cases hq : combinedScore maxd w q > acc.1
        · simpa [selectFold, hq] using ih (combinedScore maxd w q, some q) h
        · simpa [selectFold, hq] using ih acc h

lemma selectFold_snd_cases (maxd w : ℚ) (l : List RouteOption) (acc : ℚ × Option RouteOption) :
    ((selectFold maxd w l acc).2 = acc.2 ∧ (selectFold maxd w l acc).1 = acc.1) ∨
      ∃ o, o ∈ l ∧ (selectFold maxd w l acc).2 = some o ∧
        (selectFold maxd w l acc).1 = combinedScore maxd w o := by
  induction l generalizing acc with
  | nil => exact Or.inl ⟨rfl, rfl⟩
  | cons q rest ih =>
      by_cases hq : combinedScore maxd w q > acc.1
      · rcases ih (combinedScore maxd w q, some q) with ⟨h2, h1⟩ | ⟨o, ho, h2, h1⟩
        · exact Or.inr ⟨q, List.mem_cons_self q rest, by simpa [selectFold, hq] using h2,
            by simpa [selectFold, hq] using h1⟩
        · exact Or.inr ⟨o, List.mem_cons_of_mem q ho, by simpa [selectFold, hq] using h2,
            by simpa [selectFold, hq] using h1⟩
      · rcases ih acc with ⟨h2, h1⟩ | ⟨o, ho, h2, h1⟩
        · exact Or.inl ⟨by simpa [selectFold, hq] using h2, by simpa [selectFold, hq] using h1⟩
        · exact Or.inr ⟨o, List.mem_cons_of_mem q ho, by simpa [selectFold, hq] using h2,
            by simpa [selectFold, hq] using h1⟩

lemma combinedScore_nonneg (opts : List RouteOption) (w : ℚ) (o : RouteOption)
    (ho : o ∈ opts) (hw0 : 0 ≤ w) (hw1 : w ≤ 1) (hmax : 0 < pyMaxDistance opts)
    (ha : 0 ≤ o.avg_safety_score) :
    0 ≤ combinedScore (pyMaxDistance opts) w o := by
  have hle : o.total_distance ≤ pyMaxDistance opts := le_pyMaxDistance opts o ho
  have hds : o.total_distance / pyMaxDistance opts ≤ 1 := (div_le_one hmax).mpr hle
  have h1 : 0 ≤ 1 - o.total_distance / pyMaxDistance opts := by linarith
  have h2 : 0 ≤ o.avg_safety_score / 100 := by positivity
  have h3 : 0 ≤ 1 - w := by linarith
  unfold combinedScore
  have := mul_nonneg h3 h1
  have := mul_nonneg hw0 h2
  linarith

lemma select_best_route_spec (opts : List RouteOption) (w : ℚ)
    (hne : opts ≠ []) (hmax : 0 < pyMaxDistance opts)
    (hw0 : 0 ≤ w) (hw1 : w ≤ 1)
    (hnn : ∀ o ∈ opts, 0 ≤ o.total_distance ∧ 0 ≤ o.avg_safety_score) :
    ∃ r, select_best_route opts w = Except.ok (some r) ∧ r ∈ opts ∧
      ∀ o ∈ opts, combinedScore (pyMaxDistance opts) w o ≤
        combinedScore (pyMaxDistance opts) w r := by
  match opts with
  | [] => exact absurd rfl hne
  | q :: rest =>
      have hmaxne : ¬ pyMaxDistance (q :: rest) = 0 := ne_of_gt hmax
      have hq0 : 0 ≤ combinedScore (pyMaxDistance (q :: rest)) w q :=
        combinedScore_nonneg (q :: rest) w q (List.mem_cons_self q rest) hw0 hw1 hmax
          (hnn q (List.mem_cons_self q rest)).2
      have hfst : combinedScore (pyMaxDistance (q :: rest)) w q ≤
          (selectFold (pyMaxDistance (q :: rest)) w (q :: rest) (-1, none)).1 :=
        selectFold_fst_ge_mem _ _ _ _ q (List.mem_cons_self q rest)
      rcases selectFold_snd_cases (pyMaxDistance (q :: rest)) w (q :: rest) (-1, none) with
        ⟨h2, h1⟩ | ⟨r, hr, h2, h1⟩
      · exfalso
        rw [h1] at hfst
        simp only [] at hfst
        have hle : combinedScore (pyMaxDistance (q :: rest)) w q ≤ -1 := hfst
        linarith
      · refine ⟨r, ?_, hr, ?_⟩
        · simp [select_best_route, hmaxne, h2]
        · intro o ho
          have := selectFold_fst_ge_mem (pyMaxDistance (q :: rest)) w (q :: rest) (-1, none) o ho
          rw [h1] at this
          exact this

end EnhancedRouteFinder

namespace GoogleMapsRouter

/-- The fields of `GoogleRoute` read by selection and by the fallback
orchestrator result. -/
structure GoogleRoute where
  route_points : List (ℚ × ℚ)
  total_distance : ℚ
  avg_safety_score : ℚ
  total_incidents : ℕ
  safety_grade : String
  route_type : String
deriving DecidableEq, Repr

/-- The sort key of `route_options.sort(key=lambda r: abs(r.avg_safety_score -
safety_weight * 100))`. -/
def sort_key (w : ℚ) (r : GoogleRoute) : ℚ :=
  |r.avg_safety_score - w * 100|

/-- One comparison step of a stable sort followed by taking element 0: keep
the current best unless the next key is strictly smaller. -/
def selStep (w : ℚ) (best x : GoogleRoute) : GoogleRoute :=
  if sort_key w x < sort_key w best then x else best

/-- `route_options.sort(key=...)` followed by `route_options[0]`: the earliest
element with minimal key (Python's sort is stable). -/
def select_by_preference (opts : List GoogleRoute) (w : ℚ) : Option GoogleRoute :=
  match opts with
  | [] => none
  | o :: rest => some (rest.foldl (selStep w) o)

/-- Safety score of a selection result (0 when no route was selected). -/
def gAvg (r : Option GoogleRoute) : ℚ :=
  match r with
  | some g => g.avg_safety_score
  | none => 0

/-- Modelled from the claim: the combined score the claim asserts the
orchestrator maximizes, `(1 - w) * (1 - distance / maxd) + w * (avg / 100)`. -/
def claimCombinedScore (maxd w : ℚ) (r : GoogleRoute) : ℚ :=
  (1 - w) * (1 - r.total_distance / maxd) + w * (r.avg_safety_score / 100)

lemma foldl_selStep_mem (w : ℚ) (l : List GoogleRoute) (b : GoogleRoute) :
    l.foldl (selStep w) b = b ∨ l.foldl (selStep w) b ∈ l := by
  induction l generalizing b with
  | nil => exact Or.inl rfl
  | cons x xs ih =>
      rcases ih (selStep w b x) with h | h
      · rw [List.foldl_cons, h]
        unfold selStep
        by_cases hlt : sort_key w x < sort_key w b
        · rw [if_pos hlt]
          exact Or.inr (List.mem_cons_self x xs)
        · rw [if_neg hlt]
          exact Or.inl rfl
      · exact Or.inr (List.mem_cons_of_mem x h)

lemma foldl_selStep_key_le_init (w : ℚ) (l : List GoogleRoute) (b : GoogleRoute) :
    sort_key w (l.foldl (selStep w) b) ≤ sort_key w b := by
  induction l generalizing b with
  | nil => exact le_refl _
  | cons x xs ih =>
      rw [List.foldl_cons]
      refine le_trans (ih (selStep w b x)) ?_
      unfold selStep
      by_cases hlt : sort_key w x < sort_key w b
      · rw [if_pos hlt]
        exact le_of_lt hlt
      · rw [if_neg hlt]

lemma foldl_selStep_key_le_mem (w : ℚ) (l : List GoogleRoute) (b : GoogleRoute)
    (x : GoogleRoute) (hx : x ∈ l) :
    sort_key w (l.foldl (selStep w) b) ≤ sort_key w x := by
  induction l generalizing b with
  | nil => cases hx
  | cons y ys ih =>
      rcases List.mem_cons.mp hx with h | h
      · subst h
        rw [List.foldl_cons]
        refine le_trans (foldl_selStep_key_le_init w ys (selStep w b x)) ?_
        unfold selStep
        by_cases hlt : sort_key w x < sort_key w b
        · rw [if_pos hlt]
        · rw [if_neg hlt]
          exact le_of_not_lt hlt
      · rw [List.foldl_cons]
        exact ih (selStep w b y) h

lemma select_by_preference_spec (opts : List GoogleRoute) (w : ℚ) (hne : opts ≠ []) :
    ∃ g, select_by_preference opts w = some g ∧ g ∈ opts ∧
      ∀ o ∈ opts, sort_key w g ≤ sort_key w o := by
  match opts with
  | [] => exact absurd rfl hne
  | q :: rest =>
      refine ⟨rest.foldl (selStep w) q, rfl, ?_, ?_⟩
      · rcases foldl_selStep_mem w rest q with h | h
        · rw [h]
          exact List.mem_cons_self q rest
        · exact List.mem_cons_of_mem q h
      · intro o ho
        rcases List.mem_cons.mp ho with h | h
        · subst h
          exact foldl_selStep_key_le_init w rest o
        · exact foldl_selStep_key_le_mem w rest q o h

end GoogleMapsRouter

/-! ## Claims C2, C3, C9 -/

/-- Demo candidate: short but less safe. -/
def demoFast : EnhancedRouteFinder.RouteOption :=
  { total_distance := 1000, avg_safety_score := 90, route_type := "direct" }

/-- Demo candidate: long but (here) lower-scored, for concrete evaluations. -/
def demoSafe : EnhancedRouteFinder.RouteOption :=
  { total_distance := 2000, avg_safety_score := 50, route_type := "safest" }

/-- Demo google candidate with average safety 90. -/
def gDemoFast : GoogleMapsRouter.GoogleRoute :=
  { route_points := [], total_distance := 1000, avg_safety_score := 90,
    total_incidents := 0, safety_grade := "A", route_type := "fastest" }

/-- Demo google candidate with average safety 50. -/
def gDemoSafe : GoogleMapsRouter.GoogleRoute :=
  { route_points := [], total_distance := 2000, avg_safety_score := 50,
    total_incidents := 0, safety_grade := "D", route_type := "safest" }

/-- Python's `max` over the google candidates' distances. -/
def gPyMaxDistance (opts : List GoogleMapsRouter.GoogleRoute) : ℚ :=
  match opts with
  | [] => 0
  | o :: rest => (rest.map (fun x => x.total_distance)).foldl max o.total_distance

/-- C2 counterexample: the google-maps orchestrator does not select a
combined-score maximizer.  With candidates (1000 m, safety 90) and (2000 m,
safety 50) and safety_weight 1/2, `select_by_preference` (the
sort-by-`abs(avg - w*100)` selection of `find_google_route` /
`_find_fallback_routes`) picks the safety-50 route, whose combined score 1/4
is strictly below the safety-90 route's 7/10. -/
theorem google_selection_not_combined_argmax :
    GoogleMapsRouter.select_by_preference [gDemoFast, gDemoSafe] (1/2) = some gDemoSafe ∧
    GoogleMapsRouter.claimCombinedScore (gPyMaxDistance [gDemoFast, gDemoSafe]) (1/2) gDemoSafe <
      GoogleMapsRouter.claimCombinedScore (gPyMaxDistance [gDemoFast, gDemoSafe]) (1/2) gDemoFast := by
  constructor
  · norm_num [GoogleMapsRouter.select_by_preference, GoogleMapsRouter.selStep,
      GoogleMapsRouter.sort_key, gDemoFast, gDemoSafe]
  · norm_num [GoogleMapsRouter.claimCombinedScore, gPyMaxDistance, gDemoFast, gDemoSafe]

/-- C2 amended: the enhanced/road-aware selector `_select_best_route` does
return a candidate maximizing `combined_score = (1 - w) * distance_score +
w * safety_score` (the first maximizer); the google-maps orchestrator instead
returns a candidate minimizing `abs(avg_safety_score - w * 100)` (the earliest
such candidate, by sort stability), which need not maximize the combined
score. -/
theorem selection_policies_amended
    (opts : List EnhancedRouteFinder.RouteOption)
    (gopts : List GoogleMapsRouter.GoogleRoute) (w : ℚ)
    (hw0 : 0 ≤ w) (hw1 : w ≤ 1)
    (hne : opts ≠ [])
    (hmax : 0 < EnhancedRouteFinder.pyMaxDistance opts)
    (hnn : ∀ o ∈ opts, 0 ≤ o.total_distance ∧ 0 ≤ o.avg_safety_score)
    (hgne : gopts ≠ []) :
    (∃ r, EnhancedRouteFinder.select_best_route opts w = Except.ok (some r) ∧ r ∈ opts ∧
      ∀ o ∈ opts,
        EnhancedRouteFinder.combinedScore (EnhancedRouteFinder.pyMaxDistance opts) w o ≤
          EnhancedRouteFinder.combinedScore (EnhancedRouteFinder.pyMaxDistance opts) w r) ∧
    (∃ g, GoogleMapsRouter.select_by_preference gopts w = some g ∧ g ∈ gopts ∧
      ∀ o ∈ gopts, GoogleMapsRouter.sort_key w g ≤ GoogleMapsRouter.sort_key w o) :=
  ⟨EnhancedRouteFinder.select_best_route_spec opts w hne hmax hw0 hw1 hnn,
   GoogleMapsRouter.select_by_preference_spec gopts w hgne⟩

/-- C2 witness at concrete candidate lists and safety weight 7/10. -/
theorem selection_policies_amended_witness :
    (∃ r, EnhancedRouteFinder.select_best_route [demoFast, demoSafe] (7/10) =
        Except.ok (some r) ∧ r ∈ [demoFast, demoSafe] ∧
      ∀ o ∈ [demoFast, demoSafe],
        EnhancedRouteFinder.combinedScore
            (EnhancedRouteFinder.pyMaxDistance [demoFast, demoSafe]) (7/10) o ≤
          EnhancedRouteFinder.combinedScore
            (EnhancedRouteFinder.pyMaxDistance [demoFast, demoSafe]) (7/10) r) ∧
    (∃ g, GoogleMapsRouter.select_by_preference [gDemoFast, gDemoSafe] (7/10) = some g ∧
      g ∈ [gDemoFast, gDemoSafe] ∧
      ∀ o ∈ [gDemoFast, gDemoSafe],
        GoogleMapsRouter.sort_key (7/10) g ≤ GoogleMapsRouter.sort_key (7/10) o) :=
  selection_policies_amended [demoFast, demoSafe] [gDemoFast, gDemoSafe] (7/10)
    (by norm_num) (by norm_num) (by simp)
    (by norm_num [EnhancedRouteFinder.pyMaxDistance, demoFast, demoSafe])
    (by intro o ho
        rcases List.mem_cons.mp ho with h | h
        · subst h; constructor <;> norm_num [demoFast]
        · rcases List.mem_cons.mp h with h2 | h2
          · subst h2; constructor <;> norm_num [demoSafe]
          · cases h2)
    (by simp)

lemma exchange_mono (w1 w2 d1 d2 a1 a2 : ℚ)
    (_hw0 : 0 ≤ w1) (hlt : w1 < w2) (hw1 : w2 ≤ 1)
    (h1 : (1 - w1) * (1 - d2) + w1 * a2 ≤ (1 - w1) * (1 - d1) + w1 * a1)
    (h2 : (1 - w2) * (1 - d1) + w2 * a1 ≤ (1 - w2) * (1 - d2) + w2 * a2) :
    a1 ≤ a2 := by
  have e1 : 0 ≤ (1 - w2) *
      (((1 - w1) * (1 - d1) + w1 * a1) - ((1 - w1) * (1 - d2) + w1 * a2)) :=
    mul_nonneg (by linarith) (by linarith)
  have e2 : 0 ≤ (1 - w1) *
      (((1 - w2) * (1 - d2) + w2 * a2) - ((1 - w2) * (1 - d1) + w2 * a1)) :=
    mul_nonneg (by linarith) (by linarith)
  have hring : (a2 - a1) * (w2 - w1) =
      (1 - w2) * (((1 - w1) * (1 - d1) + w1 * a1) - ((1 - w1) * (1 - d2) + w1 * a2)) +
      (1 - w1) * (((1 - w2) * (1 - d2) + w2 * a2) - ((1 - w2) * (1 - d1) + w2 * a1)) := by
    ring
  have key : 0 ≤ (a2 - a1) * (w2 - w1) := by
    rw [hring]; exact add_nonneg e1 e2
  by_contra hcon
  push_neg at hcon
  have : (a2 - a1) * (w2 - w1) < 0 :=
    mul_neg_of_neg_of_pos (by linarith) (by linarith)
  linarith

lemma target_mono (a1 a2 t1 t2 : ℚ)
    (h1 : |a1 - t1| ≤ |a2 - t1|) (h2 : |a2 - t2| ≤ |a1 - t2|) (hlt : t1 < t2) :
    a1 ≤ a2 := by
  by_contra hcon
  push_neg at hcon
  have s1 : (a1 - t1) ^ 2 ≤ (a2 - t1) ^ 2 := by
    have := pow_le_pow_left₀ (abs_nonneg (a1 - t1)) h1 2
    simpa [sq_abs] using this
  have s2 : (a2 - t2) ^ 2 ≤ (a1 - t2) ^ 2 := by
    have := pow_le_pow_left₀ (abs_nonneg (a2 - t2)) h2 2
    simpa [sq_abs] using this
  nlinarith [s1, s2, mul_pos (sub_pos.mpr hcon) (sub_pos.mpr hlt)]

lemma demo_opts_nonneg :
    ∀ o ∈ [demoFast, demoSafe], 0 ≤ o.total_distance ∧ 0 ≤ o.avg_safety_score := by
  intro o ho
  rcases List.mem_cons.mp ho with h | h
  · subst h; constructor <;> norm_num [demoFast]
  · rcases List.mem_cons.mp h with h2 | h2
    · subst h2; constructor <;> norm_num [demoSafe]
    · cases h2

/-- C3: for a fixed candidate set, raising the safety weight never lowers the
selected route's average safety score, for both selection policies in the
code: the combined-score maximizer of `_select_best_route` (also
`_select_best_road_route`) and the sort-by-`abs(avg - w*100)` selection of
`find_google_route` / `_find_fallback_routes`. -/
theorem selected_safety_monotone
    (opts : List EnhancedRouteFinder.RouteOption)
    (gopts : List GoogleMapsRouter.GoogleRoute) (w1 w2 : ℚ)
    (hw0 : 0 ≤ w1) (hw12 : w1 ≤ w2) (hw1 : w2 ≤ 1)
    (hne : opts ≠ [])
    (hmax : 0 < EnhancedRouteFinder.pyMaxDistance opts)
    (hnn : ∀ o ∈ opts, 0 ≤ o.total_distance ∧ 0 ≤ o.avg_safety_score)
    (hgne : gopts ≠ []) :
    EnhancedRouteFinder.selAvg (EnhancedRouteFinder.select_best_route opts w1) ≤
      EnhancedRouteFinder.selAvg (EnhancedRouteFinder.select_best_route opts w2) ∧
    GoogleMapsRouter.gAvg (GoogleMapsRouter.select_by_preference gopts w1) ≤
      GoogleMapsRouter.gAvg (GoogleMapsRouter.select_by_preference gopts w2) := by
  constructor
  · obtain ⟨r1, e1, hr1, hm1⟩ :=
      EnhancedRouteFinder.select_best_route_spec opts w1 hne hmax hw0 (le_trans hw12 hw1) hnn
    obtain ⟨r2, e2, hr2, hm2⟩ :=
      EnhancedRouteFinder.select_best_route_spec opts w2 hne hmax (le_trans hw0 hw12) hw1 hnn
    rw [e1, e2]
    show r1.avg_safety_score ≤ r2.avg_safety_score
    rcases eq_or_lt_of_le hw12 with heq | hlt
    · subst heq
      rw [e1] at e2
      simp only [Except.ok.injEq, Option.some.injEq] at e2
      rw [e2]
    · have h1 := hm1 r2 hr2
      have h2 := hm2 r1 hr1
      unfold EnhancedRouteFinder.combinedScore at h1 h2
      have := exchange_mono w1 w2
        (r1.total_distance / EnhancedRouteFinder.pyMaxDistance opts)
        (r2.total_distance / EnhancedRouteFinder.pyMaxDistance opts)
        (r1.avg_safety_score / 100) (r2.avg_safety_score / 100)
        hw0 hlt hw1 h1 h2
      linarith
  · obtain ⟨g1, e1, hg1, hm1⟩ := GoogleMapsRouter.select_by_preference_spec gopts w1 hgne
    obtain ⟨g2, e2, hg2, hm2⟩ := GoogleMapsRouter.select_by_preference_spec gopts w2 hgne
    rw [e1, e2]
    show g1.avg_safety_score ≤ g2.avg_safety_score
    rcases eq_or_lt_of_le hw12 with heq | hlt
    · subst heq
      rw [e1] at e2
      simp only [Option.some.injEq] at e2
      rw [e2]
    · have h1 := hm1 g2 hg2
      have h2 := hm2 g1 hg1
      unfold GoogleMapsRouter.sort_key at h1 h2
      exact target_mono g1.avg_safety_score g2.avg_safety_score (w1 * 100) (w2 * 100)
        h1 h2 (by linarith)

/-- C3 witness: the concrete candidate sets at safety weights 1/10 and 19/20. -/
theorem selected_safety_monotone_witness :
    EnhancedRouteFinder.selAvg
        (EnhancedRouteFinder.select_best_route [demoFast, demoSafe] (1/10)) ≤
      EnhancedRouteFinder.selAvg
        (EnhancedRouteFinder.select_best_route [demoFast, demoSafe] (19/20)) ∧
    GoogleMapsRouter.gAvg
        (GoogleMapsRouter.select_by_preference [gDemoFast, gDemoSafe] (1/10)) ≤
      GoogleMapsRouter.gAvg
        (GoogleMapsRouter.select_by_preference [gDemoFast, gDemoSafe] (19/20)) :=
  selected_safety_monotone [demoFast, demoSafe] [gDemoFast, gDemoSafe] (1/10) (19/20)
    (by norm_num) (by norm_num) (by norm_num) (by simp)
    (by norm_num [EnhancedRouteFinder.pyMaxDistance, demoFast, demoSafe])
    demo_opts_nonneg (by simp)

/-- A candidate route with zero total distance, as produced for a degenerate
start == end request. -/
def zeroDistanceOption : EnhancedRouteFinder.RouteOption :=
  { total_distance := 0, avg_safety_score := 80, route_type := "direct" }

/-- C9 counterexample: on the non-empty candidate list containing one
zero-distance route, `_select_best_route` divides by
`max(opt.total_distance) = 0.0` and raises ZeroDivisionError instead of
returning an element of the list. -/
theorem select_zero_distance_raises :
    EnhancedRouteFinder.select_best_route [zeroDistanceOption] (7/10) =
      Except.error "ZeroDivisionError" := by
  norm_num [EnhancedRouteFinder.select_best_route, EnhancedRouteFinder.pyMaxDistance,
    zeroDistanceOption]

/-- C9 amended: on a non-empty candidate list whose maximal total distance is
positive (so the distance normalization does not divide by zero), with a
safety weight in [0, 1] and non-negative distances and safety scores,
`_select_best_route` returns an element of the list and does not raise. -/
theorem select_returns_member_amended
    (opts : List EnhancedRouteFinder.RouteOption) (w : ℚ)
    (hw0 : 0 ≤ w) (hw1 : w ≤ 1)
    (hne : opts ≠ [])
    (hmax : 0 < EnhancedRouteFinder.pyMaxDistance opts)
    (hnn : ∀ o ∈ opts, 0 ≤ o.total_distance ∧ 0 ≤ o.avg_safety_score) :
    ∃ r, EnhancedRouteFinder.select_best_route opts w = Except.ok (some r) ∧ r ∈ opts := by
  obtain ⟨r, e, hr, _⟩ := EnhancedRouteFinder.select_best_route_spec opts w hne hmax hw0 hw1 hnn
  exact ⟨r, e, hr⟩

/-- C9 witness at a concrete two-candidate list. -/
theorem select_returns_member_amended_witness :
    ∃ r, EnhancedRouteFinder.select_best_route [demoFast, demoSafe] (7/10) =
        Except.ok (some r) ∧ r ∈ [demoFast, demoSafe] :=
  select_returns_member_amended [demoFast, demoSafe] (7/10)
    (by norm_num) (by norm_num) (by simp)
    (by norm_num [EnhancedRouteFinder.pyMaxDistance, demoFast, demoSafe])
    demo_opts_nonneg

/-! ## Waypoint generation and fallback routes

`SafeRouteFinder._generate_waypoints` (safe_route_finder.py 230-312),
`EnhancedRouteFinder._combine_best_path_segments` (enhanced_route_finder.py
343-358), and the fallback route pipeline of google_maps_router.py (862-962,
672-719, 601-616).  Haversine distances, bearings and trigonometric values are
float-valued in the source and appear here as function parameters; `rng`
streams the `np.random.normal(0, 0.0003)` draws in consumption order. -/

namespace SafeRouteFinder

/-- The safer-location search of `_generate_waypoints` (lines 291-305): try 8
offsets at 45-degree steps, move to the first one scoring more than 10 points
above the original score. -/
def improveLoop (grid : ℚ × ℚ → ℚ) (cosD sinD : ℚ → ℚ) (sc : ℚ) (wp : ℚ × ℚ) :
    List ℕ → ℚ × ℚ
  | [] => wp
  | a :: rest =>
      let nl := wp.1 + 0.001 * cosD ((a : ℚ) * 45)
      let ng := wp.2 + 0.001 * sinD ((a : ℚ) * 45)
      if grid (nl, ng) > sc + 10 then (nl, ng) else improveLoop grid cosD sinD sc wp rest

/-- Entry to the safer-location search: only waypoints scoring below 40 are
moved. -/
def improveWaypoint (grid : ℚ × ℚ → ℚ) (cosD sinD : ℚ → ℚ) (wp : ℚ × ℚ) : ℚ × ℚ :=
  let sc := grid wp
  if sc < 40 then improveLoop grid cosD sinD sc wp (List.range 8) else wp

/-- `_generate_waypoints`: start, `num_waypoints - 1` intermediate points
(perpendicular turn offsets of 0.002 degrees plus a Gaussian jitter, then the
safer-location search), end.  `dist` stands for `calculate_distance`,
`bearingF` for `_calculate_bearing`, `grid` for `get_safety_score`, `cosD x`
for `math.cos(math.radians(x))` and `sinD x` for `math.sin(math.radians(x))`,
and `rng` for the stream of `np.random.normal(0, 0.0003)` draws. -/
def generateWaypoints (dist bearingF : ℚ × ℚ → ℚ × ℚ → ℚ) (grid : ℚ × ℚ → ℚ)
    (sinD cosD : ℚ → ℚ) (rng : ℕ → ℚ) (s e : ℚ × ℚ) : List (ℚ × ℚ) :=
  let direct := dist s e
  let num : ℕ := if direct > 2000 then 6 else if direct > 1000 then 4 else 3
  let b := bearingF s e
  let mids := (List.range (num - 1)).map (fun k =>
    let i : ℕ := k + 1
    let progress : ℚ := (i : ℚ) / (num : ℚ)
    let base_lat := s.1 + (e.1 - s.1) * progress
    let base_lng := s.2 + (e.2 - s.2) * progress
    let turn_angle := if i % 2 = 0 then b + 90 else b - 90
    let wp_lat := base_lat + 0.002 * cosD turn_angle + rng (2 * k)
    let wp_lng := base_lng + 0.002 * sinD turn_angle + rng (2 * k + 1)
    improveWaypoint grid cosD sinD (wp_lat, wp_lng))
  s :: (mids ++ [e])

end SafeRouteFinder

namespace EnhancedRouteFinder

/-- Python's `max` over a list of lengths. -/
def pyMaxNat (l : List ℕ) : ℕ :=
  match l with
  | [] => 0
  | x :: xs => xs.foldl max x

/-- `_combine_best_path_segments`: start, then for `i` in
`range(1, max_points - 1)` the point `paths[i % len(paths)][i]` when that path
is long enough, then end. -/
def combineBestPathSegments (paths : List (List (ℚ × ℚ))) (s e : ℚ × ℚ) : List (ℚ × ℚ) :=
  let maxPoints := pyMaxNat (paths.map List.length)
  let mids := (List.range' 1 (maxPoints - 2)).filterMap (fun i =>
    (paths.get? (i % paths.length)).bind (fun p => p.get? i))
  s :: (mids ++ [e])

end EnhancedRouteFinder

namespace GoogleMapsRouter

/-- `_create_simulated_route_with_safety_fallback`, point construction
(lines 867-889): `num_waypoints + 1` points interpolated between start and
end, with a sinusoidal variation whose longitude component at `progress = 0`
is `0.002*(1-w)` (for `w > 0.7`) or `0.001*w` (otherwise).  `sinF x` stands
for the float `math.sin(x)` and `cosF x` for `math.cos(x)`. -/
def fallbackRoutePoints (sinF cosF : ℚ → ℚ) (s e : ℚ × ℚ) (w : ℚ) : List (ℚ × ℚ) :=
  let num : ℕ := if w > 1/2 then 8 else 4
  (List.range (num + 1)).map (fun (i : ℕ) =>
    let progress : ℚ := (i : ℚ) / (num : ℚ)
    let variation : ℚ × ℚ :=
      if w > 7/10 then
        (0.002 * sinF (progress * 3.14) * (1 - w), 0.002 * cosF (progress * 3.14) * (1 - w))
      else
        (0.001 * sinF (progress * 3.14) * w, 0.001 * cosF (progress * 3.14) * w)
    (s.1 + (e.1 - s.1) * progress + variation.1, s.2 + (e.2 - s.2) * progress + variation.2))

/-- `get_safety_grade` (coarse scale of google_maps_router.py). -/
def get_safety_grade (sc : ℚ) : String :=
  if sc ≥ 80 then "A" else if sc ≥ 60 then "B" else if sc ≥ 40 then "C"
  else if sc ≥ 20 then "D" else "F"

/-- Sum of consecutive-point distances along a point list. -/
def pathDistance (dist : ℚ × ℚ → ℚ × ℚ → ℚ) (pts : List (ℚ × ℚ)) : ℚ :=
  (pts.zip pts.tail).foldl (fun acc pq => acc + dist pq.1 pq.2) 0

/-- `_create_simulated_route_with_safety_fallback`: builds the point list,
total distance, per-step safety scores (with the weight-dependent incident
adjustment of lines 916-922) and their average. -/
def createFallbackRoute (sinF cosF : ℚ → ℚ) (grid : ℚ × ℚ → ℚ) (incCount : ℚ × ℚ → ℕ)
    (dist : ℚ × ℚ → ℚ × ℚ → ℚ) (s e : ℚ × ℚ) (route_type : String) (w : ℚ) : GoogleRoute :=
  let pts := fallbackRoutePoints sinF cosF s e w
  let steps := (pts.zip pts.tail).map (fun pq =>
    let mid := ((pq.1.1 + pq.2.1) / 2, (pq.1.2 + pq.2.2) / 2)
    let sc0 := grid mid
    let ic := incCount mid
    let sc := if w > 7/10 ∧ ic > 10 then max 20 (sc0 - (ic : ℚ) * 2)
      else if w < 3/10 then max 30 (sc0 - (ic : ℚ) * (1/2)) else sc0
    (sc, ic))
  let avg := if steps.length ≠ 0 then (steps.map Prod.fst).sum / (steps.length : ℚ) else 50
  { route_points := pts
    total_distance := pathDistance dist pts
    avg_safety_score := avg
    total_incidents := (steps.map Prod.snd).sum
    safety_grade := get_safety_grade avg
    route_type := route_type ++ "_improved" }

/-- The result dictionary of `find_google_route` / `_find_fallback_routes`. -/
structure RouteResult where
  success : Bool
  best_route : Option GoogleRoute
  all_options : List GoogleRoute
  routing_method : String
  error : Option String

/-- `_find_fallback_routes`: four fixed strategies, then the
sort-by-preference selection; only when no strategy yields a route does it
report failure. -/
def find_fallback_routes (sinF cosF : ℚ → ℚ) (grid : ℚ × ℚ → ℚ) (incCount : ℚ × ℚ → ℕ)
    (dist : ℚ × ℚ → ℚ × ℚ → ℚ) (s e : ℚ × ℚ) (w : ℚ) : RouteResult :=
  let strategies : List (String × ℚ) :=
    [("fastest", 1/10), ("balanced", 1/2), ("safe", 4/5), ("safest", 19/20)]
  let options := strategies.map (fun st =>
    createFallbackRoute sinF cosF grid incCount dist s e st.1 st.2)
  match options with
  | [] =>
      { success := false, best_route := none, all_options := [],
        routing_method := "", error := some "Could not find any routes with fallback method." }
  | o :: rest =>
      { success := true, best_route := select_by_preference (o :: rest) w,
        all_options := o :: rest, routing_method := "fallback_safety_analysis",
        error := none }

/-- `find_google_route`: without a street graph it falls back; the street
branch (dead code in this repository, `street_graph` is always None) is left
abstract as `streetBranch`. -/
def find_google_route (streetBranch : Unit → RouteResult) (street_graph : Option Unit)
    (sinF cosF : ℚ → ℚ) (grid : ℚ × ℚ → ℚ) (incCount : ℚ × ℚ → ℕ)
    (dist : ℚ × ℚ → ℚ × ℚ → ℚ) (s e : ℚ × ℚ) (w : ℚ) : RouteResult :=
  match street_graph with
  | none => find_fallback_routes sinF cosF grid incCount dist s e w
  | some _ => streetBranch ()

end GoogleMapsRouter

namespace RoadAwareRouter

/-- The fields of `RoadRoute` read by `_fallback_route`. -/
structure RoadRoute where
  route_points : List (ℚ × ℚ)
  total_distance : ℚ
  avg_safety_score : ℚ
  route_type : String
deriving DecidableEq, Repr

/-- The result dictionary of `find_road_route` / `_fallback_route`. -/
structure RouteResult where
  success : Bool
  best_route : Option RoadRoute
  all_options : List RoadRoute
  routing_method : String

/-- `RoadAwareRouter._fallback_route`: the straight two-point route with mean
endpoint safety, returned with `success: True` and method `fallback`. -/
def fallback_route (gridScore : ℚ × ℚ → ℚ) (dist : ℚ × ℚ → ℚ × ℚ → ℚ)
    (s e : ℚ × ℚ) : RouteResult :=
  let rt : RoadRoute :=
    { route_points := [s, e]
      total_distance := dist s e
      avg_safety_score := (gridScore s + gridScore e) / 2
      route_type := "fallback" }
  { success := true, best_route := some rt, all_options := [rt],
    routing_method := "fallback" }

end RoadAwareRouter

/-! ## Claims C1, C5, C6, C8 -/

lemma getLast?_cons_append {α : Type _} (s e : α) (l : List α) :
    (s :: (l ++ [e])).getLast? = some e := by
  rw [show s :: (l ++ [e]) = (s :: l) ++ e :: [] from rfl, List.getLast?_append_cons]
  rfl

lemma head?_map_range_succ {α : Type _} (n : ℕ) (f : ℕ → α) :
    ((List.range (n + 1)).map f).head? = some (f 0) := by
  rw [List.range_succ_eq_map]
  rfl

/-- Taylor stand-in for the float sine; exact at 0, where the float
computation is also exact. -/
def sinApprox (x : ℚ) : ℚ := x - x ^ 3 / 6

/-- Taylor stand-in for the float cosine; exact at 0, where the float
computation is also exact. -/
def cosApprox (x : ℚ) : ℚ := 1 - x ^ 2 / 2

/-- Concrete stand-in distance for witnesses; like the haversine it is zero
exactly on identical points and small on nearby ones. -/
def taxicab (p q : ℚ × ℚ) : ℚ := |p.1 - q.1| + |p.2 - q.2|

lemma fallbackRoutePoints_head (sinF cosF : ℚ → ℚ) (s e : ℚ × ℚ) (w : ℚ)
    (hsin : sinF 0 = 0) (hcos : cosF 0 = 1) :
    (GoogleMapsRouter.fallbackRoutePoints sinF cosF s e w).head? =
      some (s.1, s.2 + (if w > 7/10 then 0.002 * (1 - w) else 0.001 * w)) := by
  unfold GoogleMapsRouter.fallbackRoutePoints
  by_cases hw : w > (1/2 : ℚ)
  · rw [if_pos hw, head?_map_range_succ]
    simp only [Nat.cast_zero, zero_div, zero_mul, hsin, hcos, mul_zero, mul_one, add_zero]
    split_ifs with h
    · simp only [Option.some.injEq, Prod.mk.injEq]
      constructor <;> ring_nf
    · simp only [Option.some.injEq, Prod.mk.injEq]
      constructor <;> ring_nf
  · rw [if_neg hw, head?_map_range_succ]
    simp only [Nat.cast_zero, zero_div, zero_mul, hsin, hcos, mul_zero, mul_one, add_zero]
    split_ifs with h
    · simp only [Option.some.injEq, Prod.mk.injEq]
      constructor <;> ring_nf
    · simp only [Option.some.injEq, Prod.mk.injEq]
      constructor <;> ring_nf

/-- C1 counterexample: in fallback mode with safety weight 0.95, the first
returned route point is offset from the requested start (0, 0) by 1/10000 of
a degree in longitude (the `0.002 * cos(0) * (1 - w)` variation term), which
exceeds the claimed 1e-6 tolerance. -/
theorem fallback_first_point_off_start :
    (GoogleMapsRouter.fallbackRoutePoints sinApprox cosApprox (0, 0) (1/100, 1/100)
        (19/20)).head? = some (0, 1/10000) ∧
      (1/1000000 : ℚ) < 1/10000 := by
  constructor
  · rw [fallbackRoutePoints_head sinApprox cosApprox (0, 0) (1/100, 1/100) (19/20)
      (by norm_num [sinApprox]) (by norm_num [cosApprox])]
    norm_num
  · norm_num

/-- C1 amended: the waypoint-graph strategies keep the contract exactly —
`_generate_waypoints` and `_combine_best_path_segments` return sequences whose
first element is precisely the requested start and whose last element is
precisely the requested end — but google-maps fallback routes do not: their
first point is offset from the start by `0.002 * (1 - w)` (for `w > 0.7`) or
`0.001 * w` degrees of longitude, beyond the 1e-6 tolerance for the weights
the code uses. -/
theorem strategy_endpoints_amended
    (dist bearingF : ℚ × ℚ → ℚ × ℚ → ℚ) (grid : ℚ × ℚ → ℚ)
    (sinD cosD sinF cosF : ℚ → ℚ) (rng : ℕ → ℚ) (s e : ℚ × ℚ)
    (paths : List (List (ℚ × ℚ))) (w : ℚ)
    (hsin : sinF 0 = 0) (hcos : cosF 0 = 1) :
    (SafeRouteFinder.generateWaypoints dist bearingF grid sinD cosD rng s e).head? = some s ∧
    (SafeRouteFinder.generateWaypoints dist bearingF grid sinD cosD rng s e).getLast? = some e ∧
    (EnhancedRouteFinder.combineBestPathSegments paths s e).head? = some s ∧
    (EnhancedRouteFinder.combineBestPathSegments paths s e).getLast? = some e ∧
    (GoogleMapsRouter.fallbackRoutePoints sinF cosF s e w).head? =
      some (s.1, s.2 + (if w > 7/10 then 0.002 * (1 - w) else 0.001 * w)) := by
  refine ⟨rfl, ?_, rfl, ?_, fallbackRoutePoints_head sinF cosF s e w hsin hcos⟩
  · exact getLast?_cons_append s e _
  · exact getLast?_cons_append s e _

/-- C1 witness: concrete strategies and weights. -/
theorem strategy_endpoints_amended_witness :
    (SafeRouteFinder.generateWaypoints taxicab (fun _ _ => 0) (fun _ => 100)
        sinApprox cosApprox (fun _ => 0) (0, 0) (1/100, 1/100)).head? = some (0, 0) ∧
    (SafeRouteFinder.generateWaypoints taxicab (fun _ _ => 0) (fun _ => 100)
        sinApprox cosApprox (fun _ => 0) (0, 0) (1/100, 1/100)).getLast? =
      some (1/100, 1/100) ∧
    (EnhancedRouteFinder.combineBestPathSegments [[(0, 0), (1/100, 1/100)]]
        (0, 0) (1/100, 1/100)).head? = some (0, 0) ∧
    (EnhancedRouteFinder.combineBestPathSegments [[(0, 0), (1/100, 1/100)]]
        (0, 0) (1/100, 1/100)).getLast? = some (1/100, 1/100) ∧
    (GoogleMapsRouter.fallbackRoutePoints sinApprox cosApprox (0, 0) (1/100, 1/100)
        (4/5)).head? =
      some (0, (0 : ℚ) + (if (4/5 : ℚ) > 7/10 then 0.002 * (1 - 4/5) else 0.001 * (4/5))) :=
  strategy_endpoints_amended taxicab (fun _ _ => 0) (fun _ => 100)
    sinApprox cosApprox sinApprox cosApprox (fun _ => 0) (0, 0) (1/100, 1/100)
    [[(0, 0), (1/100, 1/100)]] (4/5)
    (by norm_num [sinApprox]) (by norm_num [cosApprox])

/-- C5: the waypoint generator's output depends on the stream of unseeded
`np.random.normal` draws: with every other input fixed, two different draw
streams produce different waypoint lists, so repeated runs are not
bit-identical. -/
theorem waypoints_depend_on_rng :
    SafeRouteFinder.generateWaypoints (fun _ _ => 0) (fun _ _ => 0) (fun _ => 100)
        sinApprox cosApprox (fun _ => 0) (0, 0) (1/1000, 1/1000) ≠
      SafeRouteFinder.generateWaypoints (fun _ _ => 0) (fun _ _ => 0) (fun _ => 100)
        sinApprox cosApprox (fun _ => 1/1000) (0, 0) (1/1000, 1/1000) := by
  intro h
  have h1 := congrArg (fun l => l.get? 1) h
  simp only [SafeRouteFinder.generateWaypoints, SafeRouteFinder.improveWaypoint,
    SafeRouteFinder.improveLoop, sinApprox, cosApprox] at h1
  norm_num [List.range_succ] at h1

/-- C8 counterexample: with start == end == (0, 0), `_generate_waypoints` does
not return `[start, end]`: it still emits two perpendicular-offset
intermediate waypoints (a 4-point sequence). -/
theorem degenerate_waypoints_not_pair :
    SafeRouteFinder.generateWaypoints (fun _ _ => 0) (fun _ _ => 0) (fun _ => 100)
        sinApprox cosApprox (fun _ => 0) (0, 0) (0, 0) ≠ [(0, 0), (0, 0)] := by
  intro h
  have hlen := congrArg List.length h
  simp only [SafeRouteFinder.generateWaypoints] at hlen
  norm_num at hlen

/-- C8 amended: a degenerate request with start == end is processed without
error, but the generator does not special-case it to `[start, end]`: it
returns a 4-point sequence (direct distance 0 selects `num_waypoints = 3`,
hence two offset intermediates) whose first and last points are the requested
start. -/
theorem degenerate_amended
    (dist bearingF : ℚ × ℚ → ℚ × ℚ → ℚ) (grid : ℚ × ℚ → ℚ)
    (sinD cosD : ℚ → ℚ) (rng : ℕ → ℚ) (s : ℚ × ℚ)
    (hdist : dist s s = 0) :
    (SafeRouteFinder.generateWaypoints dist bearingF grid sinD cosD rng s s).length = 4 ∧
    (SafeRouteFinder.generateWaypoints dist bearingF grid sinD cosD rng s s).head? = some s ∧
    (SafeRouteFinder.generateWaypoints dist bearingF grid sinD cosD rng s s).getLast? =
      some s := by
  refine ⟨?_, rfl, getLast?_cons_append s s _⟩
  simp only [SafeRouteFinder.generateWaypoints, hdist]
  norm_num

/-- C8 witness: the degenerate request at the origin with a concrete distance
function that is zero on identical points. -/
theorem degenerate_amended_witness :
    (SafeRouteFinder.generateWaypoints taxicab (fun _ _ => 0) (fun _ => 100)
        sinApprox cosApprox (fun _ => 0) (0, 0) (0, 0)).length = 4 ∧
    (SafeRouteFinder.generateWaypoints taxicab (fun _ _ => 0) (fun _ => 100)
        sinApprox cosApprox (fun _ => 0) (0, 0) (0, 0)).head? = some (0, 0) ∧
    (SafeRouteFinder.generateWaypoints taxicab (fun _ _ => 0) (fun _ => 100)
        sinApprox cosApprox (fun _ => 0) (0, 0) (0, 0)).getLast? = some (0, 0) :=
  degenerate_amended taxicab (fun _ _ => 0) (fun _ => 100) sinApprox cosApprox
    (fun _ => 0) (0, 0) (by norm_num [taxicab])

/-- C6: with the street graph absent, `find_google_route` falls back and still
reports success with a best-effort route, its routing_method is the fallback
method and never the street-graph method, and `RoadAwareRouter._fallback_route`
likewise reports success with method `fallback`. -/
theorem fallback_mode_success
    (streetBranch : Unit → GoogleMapsRouter.RouteResult)
    (sinF cosF : ℚ → ℚ) (grid : ℚ × ℚ → ℚ) (incCount : ℚ × ℚ → ℕ)
    (dist : ℚ × ℚ → ℚ × ℚ → ℚ)
    (gridR : ℚ × ℚ → ℚ) (distR : ℚ × ℚ → ℚ × ℚ → ℚ)
    (s e : ℚ × ℚ) (w : ℚ) :
    (GoogleMapsRouter.find_google_route streetBranch none sinF cosF grid incCount
        dist s e w).success = true ∧
    (GoogleMapsRouter.find_google_route streetBranch none sinF cosF grid incCount
        dist s e w).routing_method = "fallback_safety_analysis" ∧
    (GoogleMapsRouter.find_google_route streetBranch none sinF cosF grid incCount
        dist s e w).routing_method ≠ "osmnx_multi_strategy_optimized" ∧
    (GoogleMapsRouter.find_google_route streetBranch none sinF cosF grid incCount
        dist s e w).best_route ≠ none ∧
    (RoadAwareRouter.fallback_route gridR distR s e).success = true ∧
    (RoadAwareRouter.fallback_route gridR distR s e).routing_method = "fallback" := by
  have hm : (GoogleMapsRouter.find_google_route streetBranch none sinF cosF grid incCount
      dist s e w).routing_method = "fallback_safety_analysis" := rfl
  refine ⟨rfl, hm, ?_, ?_, rfl, rfl⟩
  · rw [hm]
    decide
  · simp [GoogleMapsRouter.find_google_route, GoogleMapsRouter.find_fallback_routes,
      GoogleMapsRouter.select_by_preference]

/-! ## Waypoint-graph cost model and search

`SafeRouteFinder._find_optimal_path` (safe_route_finder.py 314-376),
`_add_intermediate_waypoints` (378-417) and `_dijkstra` (419-456). -/

namespace SafeRouteFinder

/-- Points inserted in one segment by `_add_intermediate_waypoints`: the
segment start, then (for segments over 500 m) `int(distance/300) - 1`
interpolated points with the alternating 0.0002-degree curve offset. -/
def segmentPoints (dist : ℚ × ℚ → ℚ × ℚ → ℚ) (p q : ℚ × ℚ) : List (ℚ × ℚ) :=
  let d := dist p q
  if d > 500 then
    let ni : ℕ := (Int.floor (d / 300)).toNat
    p :: (List.range (ni - 1)).map (fun (j0 : ℕ) =>
      let j : ℕ := j0 + 1
      let progress : ℚ := (j : ℚ) / ((ni : ℚ) + 1)
      let lat := p.1 + (q.1 - p.1) * progress
      let lng := p.2 + (q.2 - p.2) * progress
      (if j % 2 = 0 then lat + 0.0002 else lat - 0.0002, lng))
  else [p]

/-- `_add_intermediate_waypoints`: every segment's points, then the final
waypoint. -/
def addIntermediateWaypoints (dist : ℚ × ℚ → ℚ × ℚ → ℚ) : List (ℚ × ℚ) → List (ℚ × ℚ)
  | [] => []
  | [p] => [p]
  | p :: q :: rest => segmentPoints dist p q ++ addIntermediateWaypoints dist (q :: rest)

/-- Waypoint at index `i` (indices used by the matrices are always in
range). -/
def wpAt (wps : List (ℚ × ℚ)) (i : ℕ) : ℚ × ℚ := wps.getD i (0, 0)

/-- The `distances` matrix of `_find_optimal_path`: zero on the diagonal
(the `i != j` guard leaves `np.zeros` entries), the pair distance off it. -/
def distMat (dist : ℚ × ℚ → ℚ × ℚ → ℚ) (wps : List (ℚ × ℚ)) (i j : ℕ) : ℚ :=
  if i = j then 0 else dist (wpAt wps i) (wpAt wps j)

/-- The `safety_scores` matrix of `_find_optimal_path`: zero on the diagonal,
the mean of the endpoint grid scores off it. -/
def safMat (grid : ℚ × ℚ → ℚ) (wps : List (ℚ × ℚ)) (i j : ℕ) : ℚ :=
  if i = j then 0 else (grid (wpAt wps i) + grid (wpAt wps j)) / 2

/-- All entries of an `n` by `n` matrix. -/
def matEntries (n : ℕ) (f : ℕ → ℕ → ℚ) : List ℚ :=
  (List.range n).flatMap (fun i => (List.range n).map (f i))

/-- numpy's `.max()` over the whole matrix (the fold base 0 coincides with a
diagonal entry for the matrices used here, so the value is the numpy one). -/
def matMax (n : ℕ) (f : ℕ → ℕ → ℚ) : ℚ := (matEntries n f).foldl max 0

/-- The combined cost matrix of `_find_optimal_path`:
`(1 - w) * distances_norm + w * (1 - safety_scores_norm)` with both matrices
normalized by their `.max()`. -/
def costsMat (dist : ℚ × ℚ → ℚ × ℚ → ℚ) (grid : ℚ × ℚ → ℚ) (wps : List (ℚ × ℚ))
    (w : ℚ) (i j : ℕ) : ℚ :=
  (1 - w) * (distMat dist wps i j / matMax wps.length (distMat dist wps)) +
    w * (1 - safMat grid wps i j / matMax wps.length (safMat grid wps))

/-- Pointwise update of a table. -/
def updateFn {α : Type _} (f : ℕ → α) (k : ℕ) (x : α) : ℕ → α :=
  fun i => if i = k then x else f i

/-- The node the priority queue pops next: the unvisited node with smallest
finite tentative distance, smallest index first on ties (heapq orders the
`(distance, node)` pairs lexicographically). -/
def selectMin (dist : ℕ → Option ℚ) (unvisited : List ℕ) : Option ℕ :=
  unvisited.foldl (fun best n =>
    match dist n with
    | none => best
    | some d =>
        match best with
        | none => some n
        | some b =>
            match dist b with
            | none => some n
            | some db => if d < db then some n else best) none

/-- Relaxation of all edges out of `u` (`_dijkstra` inner loop). -/
def relaxAll (costs : ℕ → ℕ → ℚ) (n u : ℕ) (du : ℚ)
    (acc : (ℕ → Option ℚ) × (ℕ → Option ℕ)) : (ℕ → Option ℚ) × (ℕ → Option ℕ) :=
  (List.range n).foldl (fun acc2 v =>
    if v = u then acc2
    else
      let nd := du + costs u v
      match acc2.1 v with
      | none => (updateFn acc2.1 v (some nd), updateFn acc2.2 v (some u))
      | some dv =>
          if nd < dv then (updateFn acc2.1 v (some nd), updateFn acc2.2 v (some u))
          else acc2) acc

/-- The main loop of `_dijkstra`; `none` distances stand for `np.inf`,
`none` predecessors for `-1`.  One unit of fuel per visited node; `n` units
cover every iteration the Python loop can perform. -/
def dijkstraLoop (costs : ℕ → ℕ → ℚ) (n target : ℕ) :
    ℕ → (ℕ → Option ℚ) → (ℕ → Option ℕ) → (ℕ → Bool) → (ℕ → Option ℕ)
  | 0, _, prev, _ => prev
  | Nat.succ fuel, dist, prev, vis =>
      match selectMin dist ((List.range n).filter (fun i => !(vis i))) with
      | none => prev
      | some u =>
          if u = target then prev
          else
            let du := (dist u).getD 0
            let acc := relaxAll costs n u du (dist, prev)
            dijkstraLoop costs n target fuel acc.1 acc.2 (fun i => vis i || (i == u))

/-- The path reconstruction of `_dijkstra` (before reversal): follow
predecessors from the target until `-1`. -/
def buildPath : ℕ → (ℕ → Option ℕ) → ℕ → List ℕ
  | 0, _, cur => [cur]
  | Nat.succ fuel, prev, cur =>
      match prev cur with
      | none => [cur]
      | some p => cur :: buildPath fuel prev p

/-- `_dijkstra(costs, start, end)`. -/
def dijkstra (costs : ℕ → ℕ → ℚ) (n start target : ℕ) : List ℕ :=
  let prev := dijkstraLoop costs n target n
    (fun i => if i = start then some 0 else none) (fun _ => none) (fun _ => false)
  (buildPath n prev target).reverse

/-- `_find_optimal_path`: enhance short waypoint lists, build the cost
matrix, run Dijkstra from node 0 to node n-1; returns the index path and its
points. -/
def find_optimal_path (dist : ℚ × ℚ → ℚ × ℚ → ℚ) (grid : ℚ × ℚ → ℚ) (w : ℚ)
    (wps0 : List (ℚ × ℚ)) : List ℕ × List (ℚ × ℚ) :=
  let wps := if wps0.length < 4 then addIntermediateWaypoints dist wps0 else wps0
  let n := wps.length
  let path := dijkstra (costsMat dist grid wps w) n 0 (n - 1)
  (path, path.map (wpAt wps))

/-- The off-diagonal (true edge) entries of a cost matrix; the claimed
normalization is over this edge set. -/
def offDiagList (n : ℕ) (f : ℕ → ℕ → ℚ) : List ℚ :=
  (List.range n).flatMap (fun i => ((List.range n).filter (fun j => j ≠ i)).map (f i))

/-- Python-style `max` of a rational list (0 on the empty list, which the
claims never exercise). -/
def listMaxD (l : List ℚ) : ℚ :=
  match l with
  | [] => 0
  | x :: xs => xs.foldl max x

/-- Maximum over the true edges of the waypoint graph. -/
def offDiagMax (n : ℕ) (f : ℕ → ℕ → ℚ) : ℚ := listMaxD (offDiagList n f)

/-- Modelled from the claim: the edge cost C4 asserts, with the distance
normalized over the edge set and the safety term being the normalized
`(100 - safety)` value. -/
def claimSpecCost (dist : ℚ × ℚ → ℚ × ℚ → ℚ) (grid : ℚ × ℚ → ℚ) (wps : List (ℚ × ℚ))
    (w : ℚ) (i j : ℕ) : ℚ :=
  (1 - w) * (dist (wpAt wps i) (wpAt wps j) /
      offDiagMax wps.length (fun a b => dist (wpAt wps a) (wpAt wps b))) +
    w * (1 - (100 - (grid (wpAt wps i) + grid (wpAt wps j)) / 2) /
      offDiagMax wps.length (fun a b => 100 - (grid (wpAt wps a) + grid (wpAt wps b)) / 2))

end SafeRouteFinder

namespace SafeRouteFinder

lemma foldl_max_le (a B : ℚ) (l : List ℚ) (ha : a ≤ B) (h : ∀ x ∈ l, x ≤ B) :
    l.foldl max a ≤ B := by
  induction l generalizing a with
  | nil => exact ha
  | cons x xs ih =>
      exact ih (max a x) (max_le ha (h x (List.mem_cons_self x xs)))
        (fun y hy => h y (List.mem_cons_of_mem x hy))

lemma listMaxD_ge (l : List ℚ) (x : ℚ) (hx : x ∈ l) : x ≤ listMaxD l := by
  match l with
  | [] => cases hx
  | y :: ys =>
      rcases List.mem_cons.mp hx with h | h
      · subst h
        exact EnhancedRouteFinder.foldl_max_init_le x ys
      · exact EnhancedRouteFinder.foldl_max_mem_le y x ys h

lemma listMaxD_le (l : List ℚ) (B : ℚ) (hne : l ≠ []) (h : ∀ x ∈ l, x ≤ B) :
    listMaxD l ≤ B := by
  match l with
  | [] => exact absurd rfl hne
  | y :: ys =>
      exact foldl_max_le y B ys (h y (List.mem_cons_self y ys))
        (fun x hx => h x (List.mem_cons_of_mem y hx))

lemma matMax_ge (n : ℕ) (f : ℕ → ℕ → ℚ) (i j : ℕ) (hi : i < n) (hj : j < n) :
    f i j ≤ matMax n f := by
  have hmem : f i j ∈ matEntries n f := by
    unfold matEntries
    exact List.mem_flatMap.mpr ⟨i, List.mem_range.mpr hi,
      List.mem_map.mpr ⟨j, List.mem_range.mpr hj, rfl⟩⟩
  exact EnhancedRouteFinder.foldl_max_mem_le 0 (f i j) (matEntries n f) hmem

lemma matMax_le (n : ℕ) (f : ℕ → ℕ → ℚ) (B : ℚ) (hB : 0 ≤ B)
    (h : ∀ i j, i < n → j < n → f i j ≤ B) : matMax n f ≤ B := by
  apply foldl_max_le 0 B _ hB
  intro x hx
  obtain ⟨i, hi, hx2⟩ := List.mem_flatMap.mp hx
  obtain ⟨j, hj, rfl⟩ := List.mem_map.mp hx2
  exact h i j (List.mem_range.mp hi) (List.mem_range.mp hj)

lemma mem_offDiagList (n : ℕ) (f : ℕ → ℕ → ℚ) (i j : ℕ)
    (hi : i < n) (hj : j < n) (hij : j ≠ i) : f i j ∈ offDiagList n f := by
  unfold offDiagList
  refine List.mem_flatMap.mpr ⟨i, List.mem_range.mpr hi, List.mem_map.mpr ⟨j, ?_, rfl⟩⟩
  refine List.mem_filter.mpr ⟨List.mem_range.mpr hj, ?_⟩
  exact decide_eq_true hij

lemma offDiagMax_ge (n : ℕ) (f : ℕ → ℕ → ℚ) (i j : ℕ)
    (hi : i < n) (hj : j < n) (hij : j ≠ i) : f i j ≤ offDiagMax n f :=
  listMaxD_ge (offDiagList n f) (f i j) (mem_offDiagList n f i j hi hj hij)

lemma matMax_eq_offDiagMax (n : ℕ) (f : ℕ → ℕ → ℚ) (hn : 2 ≤ n)
    (hdiag : ∀ i, f i i = 0) (hnn : ∀ i j, 0 ≤ f i j) :
    matMax n f = offDiagMax n f := by
  have h01 : f 0 1 ≤ offDiagMax n f :=
    offDiagMax_ge n f 0 1 (by omega) (by omega) (by omega)
  have hod0 : 0 ≤ offDiagMax n f := le_trans (hnn 0 1) h01
  apply le_antisymm
  · apply matMax_le n f _ hod0
    intro i j hi hj
    by_cases hij : i = j
    · subst hij
      rw [hdiag]
      exact hod0
    · exact offDiagMax_ge n f i j hi hj (fun hc => hij hc.symm)
  · apply listMaxD_le
    · exact List.ne_nil_of_mem (mem_offDiagList n f 0 1 (by omega) (by omega) (by omega))
    · intro x hx
      obtain ⟨i, hi, hx2⟩ := List.mem_flatMap.mp hx
      obtain ⟨j, hj2, rfl⟩ := List.mem_map.mp hx2
      have hj := (List.mem_filter.mp hj2).1
      exact matMax_ge n f i j (List.mem_range.mp hi) (List.mem_range.mp hj)

lemma offDiagList_congr (n : ℕ) (f g : ℕ → ℕ → ℚ)
    (h : ∀ i j, i < n → j < n → j ≠ i → f i j = g i j) :
    offDiagList n f = offDiagList n g := by
  unfold offDiagList
  apply List.flatMap_congr
  intro i hi
  apply List.map_congr_left
  intro j hj
  have hj1 := (List.mem_filter.mp hj).1
  have hj2 := of_decide_eq_true (List.mem_filter.mp hj).2
  exact h i j (List.mem_range.mp hi) (List.mem_range.mp hj1) hj2

lemma offDiagMax_congr (n : ℕ) (f g : ℕ → ℕ → ℚ)
    (h : ∀ i j, i < n → j < n → j ≠ i → f i j = g i j) :
    offDiagMax n f = offDiagMax n g := by
  unfold offDiagMax
  rw [offDiagList_congr n f g h]

end SafeRouteFinder

/-! ## Claim C4 -/

/-- Four collinear demo waypoints. -/
def demoWps : List (ℚ × ℚ) := [(0, 0), (1, 0), (2, 0), (3, 0)]

/-- Demo safety grid: score 0 at (1, 0), 100 elsewhere. -/
def demoGrid (p : ℚ × ℚ) : ℚ := if p = (1, 0) then 0 else 100

/-- C4 counterexample: on the demo waypoint graph the edge cost computed by
`_find_optimal_path` differs from the claimed formula.  The code normalizes
the safety average itself (`1 - safety/maxsafety`); the claim normalizes
`(100 - safety)` over the edge set, and on edge (0, 1) the two give 13/20
versus 3/10 at safety weight 7/10 (with unit pair distances). -/
theorem edge_cost_not_spec_formula :
    SafeRouteFinder.costsMat (fun _ _ => 1) demoGrid demoWps (7/10) 0 1 ≠
      SafeRouteFinder.claimSpecCost (fun _ _ => 1) demoGrid demoWps (7/10) 0 1 := by
  have h1 : SafeRouteFinder.costsMat (fun _ _ => 1) demoGrid demoWps (7/10) 0 1 = 13/20 := by
    norm_num [SafeRouteFinder.costsMat, SafeRouteFinder.distMat, SafeRouteFinder.safMat,
      SafeRouteFinder.matMax, SafeRouteFinder.matEntries, SafeRouteFinder.wpAt,
      demoGrid, demoWps, List.range_succ, max_def, Prod.mk.injEq, Prod.ext_iff]
  have h2 : SafeRouteFinder.claimSpecCost (fun _ _ => 1) demoGrid demoWps (7/10) 0 1 = 3/10 := by
    norm_num [SafeRouteFinder.claimSpecCost, SafeRouteFinder.offDiagMax,
      SafeRouteFinder.offDiagList, SafeRouteFinder.listMaxD, SafeRouteFinder.wpAt,
      demoGrid, demoWps, List.range_succ, List.filter, max_def, Prod.mk.injEq,
      Prod.ext_iff, List.replicate_succ]
  rw [h1, h2]
  norm_num

/-- C4 amended: the edge cost built by `_find_optimal_path` equals
`(1 - w) * (distance / max_edge_distance) + w * (1 - safety / max_edge_safety)`
where the safety term is the mean of the endpoint grid scores and both
normalizations divide by the maximum over the true (off-diagonal) edge set —
i.e. the normalized quantity in the safety summand is the safety average
itself, not `(100 - safety)` — and the search run on this matrix is Dijkstra
from node 0 to node n-1 over the complete waypoint graph (after the
under-4-waypoints enhancement step). -/
theorem edge_cost_amended
    (dist : ℚ × ℚ → ℚ × ℚ → ℚ) (grid : ℚ × ℚ → ℚ) (wps : List (ℚ × ℚ))
    (w : ℚ) (i j : ℕ)
    (hd : ∀ p q, 0 ≤ dist p q) (hg : ∀ p, 0 ≤ grid p)
    (hn : 2 ≤ wps.length) (_hi : i < wps.length) (_hj : j < wps.length) (hij : i ≠ j) :
    SafeRouteFinder.costsMat dist grid wps w i j =
      (1 - w) * (dist (SafeRouteFinder.wpAt wps i) (SafeRouteFinder.wpAt wps j) /
          SafeRouteFinder.offDiagMax wps.length
            (fun a b => dist (SafeRouteFinder.wpAt wps a) (SafeRouteFinder.wpAt wps b))) +
        w * (1 -
          ((grid (SafeRouteFinder.wpAt wps i) + grid (SafeRouteFinder.wpAt wps j)) / 2) /
          SafeRouteFinder.offDiagMax wps.length
            (fun a b =>
              (grid (SafeRouteFinder.wpAt wps a) + grid (SafeRouteFinder.wpAt wps b)) / 2)) ∧
    (SafeRouteFinder.find_optimal_path dist grid w wps).1 =
      SafeRouteFinder.dijkstra
        (SafeRouteFinder.costsMat dist grid
          (if wps.length < 4 then SafeRouteFinder.addIntermediateWaypoints dist wps else wps) w)
        (if wps.length < 4 then SafeRouteFinder.addIntermediateWaypoints dist wps
          else wps).length
        0
        ((if wps.length < 4 then SafeRouteFinder.addIntermediateWaypoints dist wps
          else wps).length - 1) := by
  constructor
  · have hdg : ∀ a, SafeRouteFinder.distMat dist wps a a = 0 := by
      intro a
      simp [SafeRouteFinder.distMat]
    have hdn : ∀ a b, 0 ≤ SafeRouteFinder.distMat dist wps a b := by
      intro a b
      unfold SafeRouteFinder.distMat
      split
      · exact le_refl 0
      · exact hd _ _
    have hsg : ∀ a, SafeRouteFinder.safMat grid wps a a = 0 := by
      intro a
      simp [SafeRouteFinder.safMat]
    have hsn : ∀ a b, 0 ≤ SafeRouteFinder.safMat grid wps a b := by
      intro a b
      unfold SafeRouteFinder.safMat
      split
      · exact le_refl 0
      · exact div_nonneg (add_nonneg (hg _) (hg _)) (by norm_num)
    have hcd : SafeRouteFinder.offDiagMax wps.length (SafeRouteFinder.distMat dist wps) =
        SafeRouteFinder.offDiagMax wps.length
          (fun a b => dist (SafeRouteFinder.wpAt wps a) (SafeRouteFinder.wpAt wps b)) := by
      apply SafeRouteFinder.offDiagMax_congr
      intro a b ha hb hab
      simp only [SafeRouteFinder.distMat, if_neg (fun hc : a = b => hab hc.symm)]
    have hcs : SafeRouteFinder.offDiagMax wps.length (SafeRouteFinder.safMat grid wps) =
        SafeRouteFinder.offDiagMax wps.length
          (fun a b =>
            (grid (SafeRouteFinder.wpAt wps a) + grid (SafeRouteFinder.wpAt wps b)) / 2) := by
      apply SafeRouteFinder.offDiagMax_congr
      intro a b ha hb hab
      simp only [SafeRouteFinder.safMat, if_neg (fun hc : a = b => hab hc.symm)]
    unfold SafeRouteFinder.costsMat
    rw [SafeRouteFinder.matMax_eq_offDiagMax wps.length _ hn hdg hdn,
      SafeRouteFinder.matMax_eq_offDiagMax wps.length _ hn hsg hsn, hcd, hcs]
    simp only [SafeRouteFinder.distMat, SafeRouteFinder.safMat, if_neg hij]
  · rfl

/-- C4 witness at the demo waypoint graph with unit distances. -/
theorem edge_cost_amended_witness :
    SafeRouteFinder.costsMat (fun _ _ => 1) demoGrid demoWps (7/10) 0 1 =
      (1 - 7/10) * ((fun (_ _ : ℚ × ℚ) => (1 : ℚ)) (SafeRouteFinder.wpAt demoWps 0)
            (SafeRouteFinder.wpAt demoWps 1) /
          SafeRouteFinder.offDiagMax demoWps.length
            (fun a b => (fun (_ _ : ℚ × ℚ) => (1 : ℚ)) (SafeRouteFinder.wpAt demoWps a)
              (SafeRouteFinder.wpAt demoWps b))) +
        (7/10) * (1 -
          ((demoGrid (SafeRouteFinder.wpAt demoWps 0) + demoGrid (SafeRouteFinder.wpAt demoWps 1)) / 2) /
          SafeRouteFinder.offDiagMax demoWps.length
            (fun a b =>
              (demoGrid (SafeRouteFinder.wpAt demoWps a) + demoGrid (SafeRouteFinder.wpAt demoWps b)) / 2)) ∧
    (SafeRouteFinder.find_optimal_path (fun _ _ => 1) demoGrid (7/10) demoWps).1 =
      SafeRouteFinder.dijkstra
        (SafeRouteFinder.costsMat (fun _ _ => 1) demoGrid
          (if demoWps.length < 4 then
            SafeRouteFinder.addIntermediateWaypoints (fun _ _ => 1) demoWps else demoWps) (7/10))
        (if demoWps.length < 4 then
          SafeRouteFinder.addIntermediateWaypoints (fun _ _ => 1) demoWps else demoWps).length
        0
        ((if demoWps.length < 4 then
          SafeRouteFinder.addIntermediateWaypoints (fun _ _ => 1) demoWps else demoWps).length - 1) :=
  edge_cost_amended (fun _ _ => 1) demoGrid demoWps (7/10) 0 1
    (fun _ _ => by norm_num)
    (fun p => by unfold demoGrid; split <;> norm_num)
    (by norm_num [demoWps]) (by norm_num [demoWps]) (by norm_num [demoWps]) (by norm_num)
